import Mathlib

/-!
# Verification of the dataset cache-and-sync core (`t3_code/utility/functions_dataset.py`)

A shallow embedding of the cache/sync engine of the repository: the per-dataset
version ledger (`get_versions`, `add_metadata`, `add_version_to_metadata`), the
date-window version resolution (`get_filtered_versions`,
`get_first_filtered_version`), the download planner (`download_dataset`, batch
arithmetic, checksum over the assembled file) and the WebSocket progress trace
of a session (`get`, `get_single_dataset`).

Modelling conventions:

* Python `datetime` values (always used here after `.replace(tzinfo=None)`, so
  naive) are embedded as a record of calendar fields; Python compares
  `datetime`s lexicographically by field, which for values produced by
  `datetime.fromisoformat` (fields within calendar ranges) coincides with
  comparing the mixed-radix linearisation `PyDateTime.key`.
* The filesystem/JSON state behind one metadata file `<rid>.json` is embedded
  as `MetaRead`: the file may be missing, present but unparseable, or parsed
  into a `Metadata` value.  Remote (Foundry SQL) responses and the local
  filesystem checks are supplied as explicit world parameters.
* Event emission on the WebSocket is embedded as a list of `Msg` values in
  emission order.  The background keepalive task only ever emits
  `keepalive`-typed messages and is cancelled when the session ends; it is not
  part of the deterministic trace.
-/

/-- A naive Python `datetime` as produced by `datetime.fromisoformat(...)`
followed by `.replace(tzinfo=None)` (the code always strips timezone info
before comparing). -/
structure PyDateTime where
  year : Nat
  month : Nat
  day : Nat
  hour : Nat
  minute : Nat
  second : Nat
deriving DecidableEq, Repr

/-- Mixed-radix linearisation of a naive datetime.  For datetimes accepted by
`datetime.fromisoformat` (`month ≤ 12`, `day ≤ 31`, `hour < 24`,
`minute, second < 60`) comparing keys is exactly Python's field-lexicographic
`datetime` comparison. -/
def PyDateTime.key (d : PyDateTime) : Nat :=
  ((((d.year * 13 + d.month) * 32 + d.day) * 24 + d.hour) * 60 + d.minute) * 60 + d.second

/-- `datetime.fromisoformat("1970-01-01 00:00:00")`, the default sort key that
`add_version_to_metadata` uses for a version whose `dates` key is absent. -/
def epoch1970 : PyDateTime := ⟨1970, 1, 1, 0, 0, 0⟩

/-- One entry of the `versions` array of a metadata file: `{"sha256": ...,
"dates": [...], "zipped": ..., "unzipped": ...}`. -/
structure Version where
  sha256 : String
  dates : List PyDateTime
  zipped : Bool
  unzipped : Bool
deriving DecidableEq, Repr

/-- The parsed content of one metadata file `<rid>.json`:
`{"name": ..., "rid": ..., "versions": [...]}`. -/
structure Metadata where
  name : String
  rid : String
  versions : List Version
deriving DecidableEq, Repr

/-- The sort key used by both `get_versions` and `add_version_to_metadata`:
the last entry of the version's `dates` list
(`datetime.fromisoformat(v.get("dates", [...])[-1])`).  The source supplies
`["1970-01-01 00:00:00"]` as the default in `add_version_to_metadata` when the
`dates` key is absent; a present-but-empty `dates` list would raise in the
source and cannot occur for ledger-created versions, which always carry at
least one date. -/
def lastDateKey (v : Version) : Nat := (v.dates.getLastD epoch1970).key

/-- The comparison under which the `versions` list is kept: descending by
`lastDateKey` (`tmp.sort(key=..., reverse=True)`).  `versionLE a b` means `a`
may come before `b`. -/
def versionLE (a b : Version) : Prop := lastDateKey b ≤ lastDateKey a

instance : DecidableRel versionLE := fun a b => Nat.decLe (lastDateKey b) (lastDateKey a)

instance : IsTotal Version versionLE :=
  ⟨fun a b => (Nat.le_total (lastDateKey b) (lastDateKey a)).elim Or.inl Or.inr⟩

instance : IsTrans Version versionLE :=
  ⟨fun _ _ _ hab hbc => Nat.le_trans hbc hab⟩

/-- Python's `list.sort(key=..., reverse=True)` is a stable descending sort;
any stable sort by the same key produces the same list, so it is embedded as
Mathlib's (stable) insertion sort under `versionLE`.  The guard mirrors the
source's `if versions:` / `if tmp:` check before sorting. -/
def sortVersionsDesc (versions : List Version) : List Version :=
  if versions.isEmpty then versions else versions.insertionSort versionLE

/-- The three observable states of the backing record `<rid>.json` when it is
read: absent (`FileNotFoundError`), present but unparseable
(`json.JSONDecodeError`), or parsed. -/
inductive MetaRead where
  | missing
  | corrupt
  | parsed (m : Metadata)
deriving DecidableEq, Repr

/-- `true` unless the backing record is present but unparseable. -/
def MetaRead.parseable : MetaRead → Bool
  | .corrupt => false
  | _ => true

/-- The raw `versions` array stored in the backing record (before sorting);
empty when the record is missing or unparseable. -/
def rawVersions : MetaRead → List Version
  | .parsed m => m.versions
  | _ => []

/-- `get_versions(rid, name)` (functions_dataset.py:125-187): reads the
metadata file, turns a missing file, a JSON parse failure, or any other read
error into an empty `versions` list plus a diagnostic message, and sorts the
surviving list descending by each version's last date. -/
def getVersions : MetaRead → List Version × String
  | .missing => ([], "No metadata file found.")
  | .corrupt => ([], "Invalid JSON format in metadata file.")
  | .parsed m =>
    let versions := m.versions
    let message := toString versions.length ++ " available versions found."
    (sortVersionsDesc versions, message)

/-- The filter of `get_filtered_versions` (functions_dataset.py:207-210): keep
a version when at least one of its dates `d` satisfies
`date_start_dt <= d <= date_end_dt`, both ends inclusive; when `date_end` is
`None` the upper bound is `datetime.now(pytz.UTC).replace(tzinfo=None)`. -/
def dateInWindow (ds : PyDateTime) (de : Option PyDateTime) (now : PyDateTime)
    (d : PyDateTime) : Bool :=
  decide (ds.key ≤ d.key) && decide (d.key ≤ (de.getD now).key)

/-- The list produced by `get_filtered_versions` (functions_dataset.py:190-222),
values only (the messages it sends are part of `getSingleDataset`): the sorted
versions of `get_versions`, filtered by the window, with the early return `[]`
when no versions exist. -/
def getFilteredVersions (meta : MetaRead) (ds : PyDateTime) (de : Option PyDateTime)
    (now : PyDateTime) : List Version :=
  let (versions, _) := getVersions meta
  if versions.isEmpty then []
  else versions.filter (fun v => v.dates.any (dateInWindow ds de now))

/-- `get_first_filtered_version` (functions_dataset.py:225-233): the head of
the filtered list, or `None`. -/
def getFirstFilteredVersion (meta : MetaRead) (ds : PyDateTime) (de : Option PyDateTime)
    (now : PyDateTime) : Option Version :=
  (getFilteredVersions meta ds de now).head?

/-- `add_metadata(name, rid, versions)` (functions_dataset.py:527-536): creates
the metadata file when it does not exist and reports whether it created it.
The store is `Option Metadata` (`none` = file absent); an unparseable file is
handled at the caller (`downloadDataset`), where the subsequent read raises. -/
def add_metadata (name rid : String) (versions : List Version) (store : Option Metadata) :
    Option Metadata × Bool :=
  match store with
  | none => (some ⟨name, rid, versions⟩, true)
  | some m => (some m, false)

/-- `add_version_to_metadata(name, rid, version)` (functions_dataset.py:539-558):
create-on-first-write via `add_metadata`, otherwise read the record, append the
new version to `versions` unconditionally, stable-sort descending by each
version's last date, and write back.  Always returns `True`. -/
def add_version_to_metadata (name rid : String) (version : Version)
    (store : Option Metadata) : Metadata × Bool :=
  match store with
  | none => (⟨name, rid, [version]⟩, true)
  | some metadata =>
    let tmp := metadata.versions ++ [version]
    let tmp := if tmp.isEmpty then tmp else tmp.insertionSort versionLE
    ({ metadata with versions := tmp }, true)

/-- `DOWNLOAD_BATCHSIZE` (functions_dataset.py:23): rows per batch of an
incremental download. -/
def DOWNLOAD_BATCHSIZE : Nat := 1000000

/-- `num_batches = (row_count // DOWNLOAD_BATCHSIZE) + 1`
(functions_dataset.py:320). -/
def numBatches (rowCount : Nat) : Nat := rowCount / DOWNLOAD_BATCHSIZE + 1

/-- The offsets used by the batch queries, in loop order:
`offset = i * DOWNLOAD_BATCHSIZE` for `i in range(num_batches)`; batch `i`
selects the rows with `id > offset` and `id <= offset + DOWNLOAD_BATCHSIZE`
(functions_dataset.py:328-341). -/
def batchOffsets (rowCount : Nat) : List Nat :=
  (List.range (numBatches rowCount)).map (· * DOWNLOAD_BATCHSIZE)

/-- The lines of the raw CSV file assembled by the incremental download
(functions_dataset.py:343-351): batch 0 is written with the header
(`df_batch.to_csv(tmp_csv_path, index=False)`), every later batch is appended
without one (`to_csv(f, index=False, header=False)`).  `batchRows i` is the
serialised row block the remote returned for batch `i`. -/
def incrementalFileLines (header : String) (batchRows : Nat → List String) (nb : Nat) :
    List String :=
  header :: (List.range nb).flatMap batchRows

/-- The lines of the raw CSV file written by the all-at-once download
(functions_dataset.py:380-382): one `to_csv` call, header included. -/
def singleFileLines (header : String) (rows : List String) : List String :=
  header :: rows

/-- `_compute_file_sha256` (functions_dataset.py:668-673) streams the whole
file through `hashlib.sha256` in 1 MiB chunks, which equals hashing the
complete byte content once.  `hashlib.sha256` itself is an external library
primitive; it is modelled as a concrete deterministic function of the full
file content — the claims depend only on the digest being a function of the
complete assembled file, never of individual batches. -/
def sha256Model (lines : List String) : String :=
  toString ((String.intercalate "\n" lines).foldl (fun h c => h * 131 + c.toNat) 7)

/-- The `type` field of a WebSocket message sent by this module. -/
inductive MType where
  | update
  | final
  | error
  | neutral
  | keepalive
deriving DecidableEq, Repr

/-- The `message` texts sent by the session, one constructor per `send` site,
carrying the data interpolated into the text that the model tracks (names,
identifiers, counts).  The requested window and stringified exceptions that
some texts also embed are not tracked. -/
inductive MText where
  | errorNoRids (m : String)
  | connectionEstablished
  | done
  | noAvailableVersions (name m : String)
  | foundVersions (n : Nat) (rid : String)
  | noVersionsInRange (rid : String)
  | downloading (name : String)
  | noRows (name : String)
  | foundRows (rows nb : Nat) (name : String)
  | downloadingBatch (i nb : Nat) (name : String)
  | allBatchesWritten (name : String)
  | downloadingAllRows (rows : Nat) (name : String)
  | downloadedWriting (name : String)
  | failedZip (name : String)
  | failedMetadata (name : String)
  | failedDownload (name : String)
  | heartbeat
deriving DecidableEq, Repr

/-- The text each `MText` renders to on the wire (apostrophes written `\x27`).
For `noAvailableVersions`, `foundVersions`, `noVersionsInRange` and
`failedDownload` the source text additionally embeds the requested window
resp. the exception text, which the model does not track. -/
def MText.render : MText → String
  | .errorNoRids m => "ERROR | " ++ m
  | .connectionEstablished => "Connection established, starting operation..."
  | .done => "DONE"
  | .noAvailableVersions name m =>
    "No available versions found for dataset \x27" ++ name ++ "\x27. " ++ m
  | .foundVersions n rid =>
    "Found " ++ toString n ++ " versions for dataset \x27" ++ rid ++ "\x27"
  | .noVersionsInRange rid =>
    "No versions between the requested dates found for dataset \x27" ++ rid ++ "\x27"
  | .downloading name => "Downloading dataset \x27" ++ name ++ "\x27 from Foundry..."
  | .noRows name => "No rows found for dataset \x27" ++ name ++ "\x27."
  | .foundRows rows nb name =>
    "Found " ++ toString rows ++ " rows in dataset \x27" ++ name ++
      "\x27, starting download in " ++ toString nb ++ " batch(es)."
  | .downloadingBatch i nb name =>
    "Downloading batch " ++ toString i ++ " of " ++ toString nb ++ " for dataset \x27" ++
      name ++ "\x27..."
  | .allBatchesWritten name =>
    "All batches downloaded and written to temporary file for dataset \x27" ++ name ++
      "\x27. Calculating checksum..."
  | .downloadingAllRows rows name =>
    "Downloading all " ++ toString rows ++ " rows for dataset \x27" ++ name ++ "\x27..."
  | .downloadedWriting name =>
    "Dataset \x27" ++ name ++ "\x27 downloaded successfully. Writing to disk..."
  | .failedZip name => "Failed to zip dataset \x27" ++ name ++ "\x27."
  | .failedMetadata name => "Failed to update metadata for dataset \x27" ++ name ++ "\x27."
  | .failedDownload name => "Failed to download dataset \x27" ++ name ++ "\x27."
  | .heartbeat => "Heartbeat - still processing, please keep waiting..."

/-- `true` exactly on the "Failed to update metadata" text
(functions_dataset.py:430). -/
def MText.isFailedMetadata : MText → Bool
  | .failedMetadata _ => true
  | _ => false

/-- `true` exactly on the per-batch "Downloading batch i of n" text
(functions_dataset.py:332). -/
def MText.isBatchMsg : MText → Bool
  | .downloadingBatch _ _ _ => true
  | _ => false

/-- One JSON object sent over the WebSocket: `{"type": ..., "success": ...,
"message": ...}` (extra payload fields such as `datasets` are not tracked). -/
structure Msg where
  mtype : MType
  success : Bool
  text : MText
deriving DecidableEq, Repr

/-- The external world one call of `download_dataset` runs against: the remote
COUNT(*) result, the LIMIT-1 schema probe (`df.empty`, `"id" in df.columns`),
the serialised row blocks the remote returns (per batch and all-at-once), and
whether `_zip_dataset_sync` succeeds. -/
structure DlWorld where
  rowCount : Nat
  sampleEmpty : Bool
  hasIdColumn : Bool
  header : String
  batchRows : Nat → List String
  allRows : List String
  zipOk : Bool

/-- The condition of functions_dataset.py:305-314: incremental mode is taken
when `row_count > DOWNLOAD_BATCHSIZE` and the LIMIT-1 probe row is non-empty
with an `id` column. -/
def isIncremental (w : DlWorld) : Bool :=
  decide (w.rowCount > DOWNLOAD_BATCHSIZE) && !w.sampleEmpty && w.hasIdColumn

/-- The progress messages of the download phase of `download_dataset`
(functions_dataset.py:316-388): the batch announcement, one message per batch
in loop order and the checksum announcement in incremental mode; the three
whole-download updates otherwise. -/
def downloadProgressMsgs (name : String) (w : DlWorld) : List Msg :=
  if isIncremental w then
    ⟨.update, true, .foundRows w.rowCount (numBatches w.rowCount) name⟩ ::
      (List.range (numBatches w.rowCount)).map
        (fun i => ⟨.update, true, .downloadingBatch (i + 1) (numBatches w.rowCount) name⟩) ++
      [⟨.update, true, .allBatchesWritten name⟩]
  else
    [⟨.update, true, .downloadingAllRows w.rowCount name⟩,
     ⟨.update, true, .downloadedWriting name⟩,
     ⟨.update, true, .allBatchesWritten name⟩]

/-- The lines of the temporary raw file `download_dataset` assembles before
hashing: batched appends in incremental mode, one whole write otherwise. -/
def downloadFileLines (w : DlWorld) : List String :=
  if isIncremental w then incrementalFileLines w.header w.batchRows (numBatches w.rowCount)
  else singleFileLines w.header w.allRows

/-- `download_dataset(websocket, foundry_con, rid, name)`
(functions_dataset.py:269-444), as (messages sent, (return value), resulting
metadata record).  Control flow mirrors the source: zero rows ends the call
with a `final`-typed failure message; otherwise the rows are fetched
(incrementally or whole), the checksum is computed on the fully assembled
file; a zip failure reports failure without touching the metadata; updating a
metadata record that fails to parse raises `json.JSONDecodeError` inside
`add_version_to_metadata`, which the outer `except` turns into the
"Failed to download" message and a `(False, "")` return. -/
def downloadDataset (name rid : String) (w : DlWorld) (store : MetaRead)
    (now : PyDateTime) : List Msg × (Bool × String) × MetaRead :=
  let m0 : Msg := ⟨.update, true, .downloading name⟩
  if w.rowCount = 0 then
    ([m0, ⟨.final, false, .noRows name⟩], (false, ""), store)
  else
    let dlMsgs : List Msg := downloadProgressMsgs name w
    let sha := sha256Model (downloadFileLines w)
    if !w.zipOk then
      (m0 :: dlMsgs ++ [⟨.update, false, .failedZip name⟩], (false, sha), store)
    else
      match store with
      | .corrupt =>
        (m0 :: dlMsgs ++ [⟨.update, false, .failedDownload name⟩], (false, ""), .corrupt)
      | .missing =>
        let (metadata, is_added) :=
          add_version_to_metadata name rid ⟨sha, [now], true, true⟩ none
        if is_added then (m0 :: dlMsgs, (true, sha), .parsed metadata)
        else
          (m0 :: dlMsgs ++ [⟨.update, false, .failedMetadata name⟩], (false, sha), .missing)
      | .parsed m =>
        let (metadata, is_added) :=
          add_version_to_metadata name rid ⟨sha, [now], true, true⟩ (some m)
        if is_added then (m0 :: dlMsgs, (true, sha), .parsed metadata)
        else
          (m0 :: dlMsgs ++ [⟨.update, false, .failedMetadata name⟩], (false, sha), .parsed m)

/-- The external world one identity is processed against inside a session:
the state of its metadata record, the remote/zip world of a potential
download, whether `_unzip_dataset_sync` succeeds when invoked, and whether the
final `unzipped_path.exists()` check of `get_single_dataset` finds the raw
file. -/
structure IdWorld where
  meta : MetaRead
  dl : DlWorld
  unzipOk : Bool
  rawExists : Bool

/-- `get_single_dataset(websocket, foundry_con, rid, name, date_start, date_end)`
(functions_dataset.py:586-634), as (messages sent, `some sha` on normal return
or `none` when the call raises).  The first message mirrors
`get_filtered_versions`: a `neutral` failure text when no versions exist at
all, otherwise an `update` reporting the filter outcome.  A cached version
with a falsy (empty) `sha256` raises; a version without a raw file whose unzip
fails raises; a failed download raises; a missing raw file at the end
raises.  Exceptions propagate to the caller (`get`), which catches them per
identity. -/
def getSingleDataset (name rid : String) (w : IdWorld) (ds : PyDateTime)
    (de : Option PyDateTime) (now : PyDateTime) : List Msg × Option String :=
  let (versions, message) := getVersions w.meta
  if versions.isEmpty then
    let msgs := [⟨.neutral, false, .noAvailableVersions name message⟩]
    let (dmsgs, res, _) := downloadDataset name rid w.dl w.meta now
    if !res.fst then (msgs ++ dmsgs, none)
    else if w.rawExists then (msgs ++ dmsgs, some res.snd)
    else (msgs ++ dmsgs, none)
  else
    let filtered := versions.filter (fun v => v.dates.any (dateInWindow ds de now))
    let fmsg : Msg :=
      if filtered.isEmpty then ⟨.update, true, .noVersionsInRange rid⟩
      else ⟨.update, true, .foundVersions filtered.length rid⟩
    match filtered.head? with
    | some v =>
      if v.sha256 = "" then ([fmsg], none)
      else if !v.unzipped && !w.unzipOk then ([fmsg], none)
      else if w.rawExists then ([fmsg], some v.sha256)
      else ([fmsg], none)
    | none =>
      let (dmsgs, res, _) := downloadDataset name rid w.dl w.meta now
      if !res.fst then (fmsg :: dmsgs, none)
      else if w.rawExists then (fmsg :: dmsgs, some res.snd)
      else (fmsg :: dmsgs, none)

/-- The message trace of one session of `get(websocket, foundry_con)`
(functions_dataset.py:60-118) in which no session-level exception escapes:
if no requested name resolves to a RID, one `error` message ends the session;
otherwise the acknowledgment `update` is sent, each resolved identity is
processed in order with its exceptions caught and collected into `results`,
and the single closing message `{"type": "final", "success": True,
"message": "DONE"}` is sent.  `resolved` is the `name_rid_pairs` mapping
returned by `foundry_con.get_valid_rids`, each paired with its world. -/
def getTrace (resolved : List (String × String × IdWorld)) (errMessage : String)
    (ds : PyDateTime) (de : Option PyDateTime) (now : PyDateTime) : List Msg :=
  if resolved.isEmpty then
    [⟨.error, false, .errorNoRids errMessage⟩]
  else
    ⟨.update, true, .connectionEstablished⟩ ::
      (resolved.flatMap (fun p => (getSingleDataset p.1 p.2.1 p.2.2 ds de now).fst) ++
        [⟨.final, true, .done⟩])

/-! ### Concrete fixtures used by evaluations and witnesses -/

/-- `datetime.fromisoformat("2025-06-01")`. -/
def dt20250601 : PyDateTime := ⟨2025, 6, 1, 0, 0, 0⟩

/-- `datetime.fromisoformat("2025-06-02")`. -/
def dt20250602 : PyDateTime := ⟨2025, 6, 2, 0, 0, 0⟩

/-- `datetime.fromisoformat("2025-06-10")`. -/
def dt20250610 : PyDateTime := ⟨2025, 6, 10, 0, 0, 0⟩

/-- `datetime.fromisoformat("2025-06-15")`. -/
def dt20250615 : PyDateTime := ⟨2025, 6, 15, 0, 0, 0⟩

/-- `datetime.fromisoformat("2025-06-20")`. -/
def dt20250620 : PyDateTime := ⟨2025, 6, 20, 0, 0, 0⟩

/-- `datetime.fromisoformat("2025-07-01")`. -/
def dt20250701 : PyDateTime := ⟨2025, 7, 1, 0, 0, 0⟩

/-- `datetime.fromisoformat("2025-08-01")`. -/
def dt20250801 : PyDateTime := ⟨2025, 8, 1, 0, 0, 0⟩

/-- `datetime.fromisoformat("2025-08-31")`. -/
def dt20250831 : PyDateTime := ⟨2025, 8, 31, 0, 0, 0⟩

/-- A version observed on 2025-06-01. -/
def vJun01 : Version := ⟨"a", [dt20250601], true, true⟩

/-- A version observed on 2025-06-15. -/
def vJun15 : Version := ⟨"b", [dt20250615], true, true⟩

/-- A version observed on 2025-07-01. -/
def vJul01 : Version := ⟨"c", [dt20250701], true, true⟩

/-- A ledger record holding versions dated 2025-06-01, 2025-06-15 and
2025-07-01. -/
def exampleMeta : MetaRead := .parsed ⟨"ds", "rid0", [vJun01, vJun15, vJul01]⟩

/-- A download world whose remote COUNT(*) is zero. -/
def zeroRowsDl : DlWorld := ⟨0, true, false, "h", fun _ => [], [], true⟩

/-- An identity with no cached metadata whose remote dataset has zero rows. -/
def zeroRowsWorld : IdWorld := ⟨.missing, zeroRowsDl, true, false⟩

/-- A one-row download world in which `_zip_dataset_sync` fails. -/
def zipFailDl : DlWorld := ⟨1, true, false, "h", fun _ => [], ["r1"], false⟩

/-- A 2,000,000-row download world (an exact multiple of the batch size) with
the `id` column present. -/
def twoMillionDl : DlWorld := ⟨2000000, false, true, "h", fun _ => [], [], true⟩

/-- A 2,500,001-row download world with the `id` column present. -/
def bigDl : DlWorld := ⟨2500001, false, true, "h", fun _ => [], [], true⟩

/-- A 1,000,001-row incremental download world whose two batches hold one row
in total. -/
def batchedDl : DlWorld :=
  ⟨1000001, false, true, "h", fun i => if i = 0 then ["r1"] else [], [], true⟩

/-- A one-row single-shot download world with the same header and rows as
`batchedDl`. -/
def singleDl : DlWorld := ⟨1, true, false, "h", fun _ => [], ["r1"], true⟩

/-- An existing version whose last date ties with `vTie`. -/
def uTie : Version := ⟨"u", [dt20250601], true, true⟩

/-- A fresh version whose last date ties with `uTie`. -/
def vTie : Version := ⟨"v", [dt20250601], true, true⟩

/-- A ledger record holding only `uTie`. -/
def metaTie : Metadata := ⟨"ds", "rid1", [uTie]⟩

/-! ### Helper lemmas -/

/-- The `if not versions: return []` guard composed with `filter` and `head?`
is exactly `find?`. -/
theorem head?_emptyGuard_filter {α : Type} (l : List α) (p : α → Bool) :
    (if l.isEmpty then ([] : List α) else l.filter p).head? = l.find? p := by
  cases l <;> simp

/-! ### Claims -/

/-- C1: evaluation of `add_version_to_metadata` at a version whose checksum
already exists in the entry.  The source appends unconditionally: the result
holds two version entries with checksum "abc", the existing entry's date list
is untouched, and the length of `versions` grows from 1 to 2 — against the
claim (and against the metadata docstring at functions_dataset.py:133, which
documents `dates` as accumulating the dates on which an identical dataset was
pulled). -/
theorem c1_duplicate_checksum_appended_eval :
    (add_version_to_metadata "ds" "r" ⟨"abc", [dt20250602], true, true⟩
        (some ⟨"ds", "r", [⟨"abc", [dt20250601], true, true⟩]⟩)).fst.versions =
      [⟨"abc", [dt20250602], true, true⟩, ⟨"abc", [dt20250601], true, true⟩] ∧
    ((add_version_to_metadata "ds" "r" ⟨"abc", [dt20250602], true, true⟩
        (some ⟨"ds", "r", [⟨"abc", [dt20250601], true, true⟩]⟩)).fst.versions.filter
      (fun v => v.sha256 == "abc")).length = 2 := by
  decide

/-- C5: `get_first_filtered_version` returns the first version, in the
descending-by-last-date order maintained by `get_versions`, having at least
one date inside the inclusive window — and on the ledger with versions dated
2025-06-01 / 2025-06-15 / 2025-07-01, the window (2025-06-10, 2025-06-20)
resolves to the 2025-06-15 version while (2025-08-01, 2025-08-31) resolves to
`none` rather than an error. -/
theorem c5_window_resolution :
    (∀ (meta : MetaRead) (ds de now : PyDateTime),
      getFirstFilteredVersion meta ds (some de) now =
        (sortVersionsDesc (rawVersions meta)).find?
          (fun v => v.dates.any (dateInWindow ds (some de) now))) ∧
    getFirstFilteredVersion exampleMeta dt20250610 (some dt20250620) dt20250620 =
      some vJun15 ∧
    getFirstFilteredVersion exampleMeta dt20250801 (some dt20250831) dt20250831 = none := by
  refine ⟨fun meta ds de now => ?_, by decide, by decide⟩
  cases meta with
  | missing => simp [getFirstFilteredVersion, getFilteredVersions, getVersions, rawVersions,
      sortVersionsDesc]
  | corrupt => simp [getFirstFilteredVersion, getFilteredVersions, getVersions, rawVersions,
      sortVersionsDesc]
  | parsed m =>
    simpa [getFirstFilteredVersion, getFilteredVersions, getVersions, rawVersions] using
      head?_emptyGuard_filter (sortVersionsDesc m.versions)
        (fun v => v.dates.any (dateInWindow ds (some de) now))

/-- C6 counterexample: a backing record that exists but fails to parse is not
surfaced as a failure — `get_versions` silently resets it to the same empty
version list a missing record produces, and window resolution then behaves
exactly as on a cache miss. -/
theorem c6_corrupt_record_reset_eval :
    (getVersions .corrupt).fst = [] ∧ (getVersions .missing).fst = [] ∧
    getFirstFilteredVersion .corrupt dt20250610 (some dt20250620) dt20250620 = none := by
  decide

/-- C6 amended: a record that exists but fails to parse yields the empty
version list with the diagnostic message "Invalid JSON format in metadata
file." — a silent reset, treated by window resolution exactly like a missing
record; a missing record yields the explicit empty value with "No metadata
file found.", and neither case is an error. -/
theorem c6_corrupt_and_missing_amended :
    getVersions .corrupt = ([], "Invalid JSON format in metadata file.") ∧
    getVersions .missing = ([], "No metadata file found.") ∧
    ∀ (ds : PyDateTime) (de : Option PyDateTime) (now : PyDateTime),
      getFirstFilteredVersion .corrupt ds de now = getFirstFilteredVersion .missing ds de now := by
  refine ⟨by decide, by decide, fun ds de now => ?_⟩
  simp [getFirstFilteredVersion, getFilteredVersions, getVersions]

/-- C2: evaluation of the session trace for one resolved identity whose remote
dataset has zero rows.  `download_dataset` emits a `final`-typed failure
("No rows found...") from inside per-identity processing
(functions_dataset.py:293-298), and the session afterwards emits its own
closing `final` — two terminal-typed events, the first of which is not last,
against the claim.  (The repository's own client, src/test_websocket.py, stops
listening at the first `final`-typed message.) -/
theorem c2_zero_rows_double_final_eval :
    (getTrace [("Alpha", "rid1", zeroRowsWorld)] "m" dt20250601 (some dt20250620)
        dt20250620).map Msg.mtype =
      [.update, .neutral, .update, .final, .final] ∧
    ((getTrace [("Alpha", "rid1", zeroRowsWorld)] "m" dt20250601 (some dt20250620)
        dt20250620).filter (fun m => m.mtype == .final)).length = 2 := by
  decide

/-- C8: after any call of `add_version_to_metadata`, whatever the previous
state of the record, the resulting `versions` list is sorted descending by
each version's last observed date, and ties are stable: any pair already in
descending-or-tied order in the pre-sort list (previous `versions` with the
new version appended) keeps its relative order. -/
theorem c8_versions_sorted_after_append (name rid : String) (version : Version)
    (store : Option Metadata) :
    List.Sorted versionLE (add_version_to_metadata name rid version store).fst.versions ∧
    ∀ a b : Version, versionLE a b →
      List.Sublist [a, b] ((store.map Metadata.versions).getD [] ++ [version]) →
      List.Sublist [a, b] ((add_version_to_metadata name rid version store).fst.versions) := by
  cases store with
  | none =>
    refine ⟨List.sorted_singleton version, fun a b _ h => ?_⟩
    have := h.length_le
    simp at this
  | some m =>
    constructor
    · show List.Sorted versionLE
        (if (m.versions ++ [version]).isEmpty then m.versions ++ [version]
         else (m.versions ++ [version]).insertionSort versionLE)
      rw [if_neg (by simp)]
      exact List.sorted_insertionSort versionLE _
    · intro a b hab h
      show List.Sublist [a, b] <|
        (if (m.versions ++ [version]).isEmpty then m.versions ++ [version]
         else (m.versions ++ [version]).insertionSort versionLE)
      rw [if_neg (by simp)]
      exact List.pair_sublist_insertionSort hab (by simpa using h)

/-- C8 witness: appending `vTie` (last date tied with the existing `uTie`) to
the record `metaTie` leaves the list sorted with the tie in input order. -/
theorem c8_versions_sorted_after_append_witness :
    List.Sorted versionLE (add_version_to_metadata "ds" "rid1" vTie (some metaTie)).fst.versions ∧
    List.Sublist [uTie, vTie] ((add_version_to_metadata "ds" "rid1" vTie (some metaTie)).fst.versions) :=
  ⟨(c8_versions_sorted_after_append "ds" "rid1" vTie (some metaTie)).1,
   (c8_versions_sorted_after_append "ds" "rid1" vTie (some metaTie)).2 uTie vTie
     (by decide) (List.Sublist.refl _)⟩

/-- C9: in any session in which at least one name resolved and no
session-level exception escapes, the closing message of the trace is the
terminal `{"type": "final", "success": True, "message": "DONE"}` — whatever
the per-identity worlds did, including every identity raising (per-identity
exceptions are caught in the loop and collected into `results`). -/
theorem c9_session_final_done (resolved : List (String × String × IdWorld))
    (errMessage : String) (ds : PyDateTime) (de : Option PyDateTime) (now : PyDateTime)
    (h : resolved.isEmpty = false) :
    (getTrace resolved errMessage ds de now).getLast? =
      some ⟨.final, true, .done⟩ ∧ MText.done.render = "DONE" := by
  refine ⟨?_, rfl⟩
  unfold getTrace
  rw [if_neg (by simp [h])]
  rw [← List.cons_append, List.getLast?_concat]

/-- C9 witness: a session with one resolved identity whose processing raises
(zero remote rows, so the download fails and `get_single_dataset` raises)
still closes with `final`/`True`/"DONE". -/
theorem c9_session_final_done_witness :
    (getTrace [("Alpha", "rid1", zeroRowsWorld)] "m" dt20250601 (some dt20250620)
        dt20250620).getLast? = some ⟨.final, true, .done⟩ ∧ MText.done.render = "DONE" :=
  c9_session_final_done [("Alpha", "rid1", zeroRowsWorld)] "m" dt20250601
    (some dt20250620) dt20250620 rfl

/-- The message list of `download_dataset`, characterised: the opening
"Downloading..." update, the progress messages of the chosen fetch strategy,
and — depending on the branch taken — the zip-failure update, the
exception-path update for an unparseable record, or nothing (the
metadata-failure branch never fires, `add_version_to_metadata` being
constantly `True`). -/
theorem downloadDataset_fst (name rid : String) (w : DlWorld) (store : MetaRead)
    (now : PyDateTime) :
    (downloadDataset name rid w store now).fst =
      if w.rowCount = 0 then
        [⟨.update, true, .downloading name⟩, ⟨.final, false, .noRows name⟩]
      else
        ⟨.update, true, .downloading name⟩ :: downloadProgressMsgs name w ++
          (if !w.zipOk then [⟨.update, false, .failedZip name⟩]
           else match store with
             | .corrupt => [⟨.update, false, .failedDownload name⟩]
             | _ => []) := by
  unfold downloadDataset
  by_cases hc : w.rowCount = 0
  · simp [hc]
  · cases store <;> simp [hc, add_version_to_metadata] <;> split <;> simp

/-- No progress message of the download phase carries the
"Failed to update metadata" text. -/
theorem isFailedMetadata_eq_false_of_mem_progressMsgs (name : String) (w : DlWorld)
    (a : Msg) (ha : a ∈ downloadProgressMsgs name w) : a.text.isFailedMetadata = false := by
  unfold downloadProgressMsgs at ha
  split at ha <;> simp at ha
  · rcases ha with rfl | ⟨i, hi, rfl⟩ | rfl <;> rfl
  · rcases ha with rfl | rfl | rfl <;> rfl

/-- C10: `add_version_to_metadata` returns `True` on every input (both the
create-new branch and the update branch end in `return True`), so the
`if not is_added` branch of `download_dataset` ("Failed to update metadata...",
functions_dataset.py:425-432) is unreachable when `add_version_to_metadata`
returns normally: no download trace contains that message. -/
theorem c10_add_version_always_true :
    (∀ (name rid : String) (version : Version) (store : Option Metadata),
      (add_version_to_metadata name rid version store).snd = true) ∧
    ∀ (name rid : String) (w : DlWorld) (store : MetaRead) (now : PyDateTime),
      ((downloadDataset name rid w store now).fst.filter
        (fun m => m.text.isFailedMetadata)) = [] := by
  constructor
  · intro name rid version store
    cases store <;> rfl
  · intro name rid w store now
    rw [List.filter_eq_nil_iff]
    intro a ha
    rw [downloadDataset_fst] at ha
    split at ha
    · simp at ha
      rcases ha with rfl | rfl <;> simp [MText.isFailedMetadata]
    · simp at ha
      rcases ha with rfl | ha | ha
      · simp [MText.isFailedMetadata]
      · simp [isFailedMetadata_eq_false_of_mem_progressMsgs name w a ha]
      · split at ha
        · simp at ha
          subst ha
          simp [MText.isFailedMetadata]
        · cases store with
          | missing => simp at ha
          | corrupt =>
            simp at ha
            subst ha
            simp [MText.isFailedMetadata]
          | parsed m => simp at ha

/-- C7 counterexample: a fetch whose raw file is written but whose zip
(transcode) step fails does not record any version at all — the resulting
metadata record is untouched (here: still absent, `rawVersions` empty), while
the claim asserts a version is still recorded with `hasCompressed=false`. -/
theorem c7_zip_failure_no_version_recorded :
    (downloadDataset "A" "r" zipFailDl .missing dt20250601).snd.fst.fst = false ∧
    (downloadDataset "A" "r" zipFailDl .missing dt20250601).snd.snd = MetaRead.missing ∧
    rawVersions (downloadDataset "A" "r" zipFailDl .missing dt20250601).snd.snd = [] := by
  decide

/-- C7 amended: when the raw file is written (row count non-zero) and the zip
step fails, `download_dataset` reports failure to the caller (`False` with the
computed checksum), sends the "Failed to zip..." update as its final message,
and skips the metadata update entirely — no version is recorded for the
fetch (functions_dataset.py:406-414 returns before the metadata step). -/
theorem c7_zip_failure_amended (name rid : String) (w : DlWorld) (store : MetaRead)
    (now : PyDateTime) (hpos : w.rowCount ≠ 0) (hz : w.zipOk = false) :
    (downloadDataset name rid w store now).snd.fst.fst = false ∧
    (downloadDataset name rid w store now).snd.fst.snd =
      sha256Model (downloadFileLines w) ∧
    (downloadDataset name rid w store now).snd.snd = store ∧
    (downloadDataset name rid w store now).fst.getLast? =
      some ⟨.update, false, .failedZip name⟩ := by
  refine ⟨?_, ?_, ?_, ?_⟩
  · unfold downloadDataset; simp [hpos, hz]
  · unfold downloadDataset; simp [hpos, hz]
  · unfold downloadDataset; simp [hpos, hz]
  · rw [downloadDataset_fst, if_neg hpos, hz]
    simp only [Bool.not_false, if_pos]
    rw [List.getLast?_concat]

/-- C7 witness: the amended statement evaluated on a one-row fetch against an
existing parsed record with a failing zip step. -/
theorem c7_zip_failure_amended_witness :
    (downloadDataset "B" "r2" zipFailDl (.parsed metaTie) dt20250601).snd.fst.fst = false ∧
    (downloadDataset "B" "r2" zipFailDl (.parsed metaTie) dt20250601).snd.fst.snd =
      sha256Model (downloadFileLines zipFailDl) ∧
    (downloadDataset "B" "r2" zipFailDl (.parsed metaTie) dt20250601).snd.snd =
      .parsed metaTie ∧
    (downloadDataset "B" "r2" zipFailDl (.parsed metaTie) dt20250601).fst.getLast? =
      some ⟨.update, false, .failedZip "B"⟩ :=
  c7_zip_failure_amended "B" "r2" zipFailDl (.parsed metaTie) dt20250601 (by decide) rfl

/-- C3: the checksum is a function of the completely assembled raw file only
(`_compute_file_sha256` runs once, after all batches are appended - never
per batch), so an incremental fetch and a single-shot fetch that assemble the
same file content return the same checksum, and both report success. -/
theorem c3_checksum_independent_of_fetch_strategy
    (name1 rid1 name2 rid2 : String) (w1 w2 : DlWorld) (s1 s2 : MetaRead)
    (n1 n2 : PyDateTime)
    (h1count : w1.rowCount > DOWNLOAD_BATCHSIZE)
    (h1sample : w1.sampleEmpty = false) (h1id : w1.hasIdColumn = true)
    (h2count : w2.rowCount ≤ DOWNLOAD_BATCHSIZE) (h2pos : w2.rowCount ≠ 0)
    (hz1 : w1.zipOk = true) (hz2 : w2.zipOk = true)
    (hp1 : s1.parseable = true) (hp2 : s2.parseable = true)
    (hheader : w1.header = w2.header)
    (hrows : (List.range (numBatches w1.rowCount)).flatMap w1.batchRows = w2.allRows) :
    (downloadDataset name1 rid1 w1 s1 n1).snd.fst.fst = true ∧
    (downloadDataset name2 rid2 w2 s2 n2).snd.fst.fst = true ∧
    (downloadDataset name1 rid1 w1 s1 n1).snd.fst.snd =
      (downloadDataset name2 rid2 w2 s2 n2).snd.fst.snd := by
  have h1pos : w1.rowCount ≠ 0 := by
    intro h
    rw [h] at h1count
    exact absurd h1count (by decide)
  have hinc1 : isIncremental w1 = true := by
    simp [isIncremental, h1sample, h1id, h1count]
  have hinc2 : isIncremental w2 = false := by
    simp [isIncremental, decide_eq_false (Nat.not_lt.mpr h2count)]
  have hfiles : downloadFileLines w1 = downloadFileLines w2 := by
    simp [downloadFileLines, hinc1, hinc2, incrementalFileLines, singleFileLines,
      hheader, hrows]
  have d1 : (downloadDataset name1 rid1 w1 s1 n1).snd.fst =
      (true, sha256Model (downloadFileLines w1)) := by
    unfold downloadDataset
    rw [if_neg h1pos]
    cases s1 with
    | corrupt => simp [MetaRead.parseable] at hp1
    | missing => simp [hz1, add_version_to_metadata]
    | parsed m => simp [hz1, add_version_to_metadata]
  have d2 : (downloadDataset name2 rid2 w2 s2 n2).snd.fst =
      (true, sha256Model (downloadFileLines w2)) := by
    unfold downloadDataset
    rw [if_neg h2pos]
    cases s2 with
    | corrupt => simp [MetaRead.parseable] at hp2
    | missing => simp [hz2, add_version_to_metadata]
    | parsed m => simp [hz2, add_version_to_metadata]
  refine ⟨?_, ?_, ?_⟩
  · rw [d1]
  · rw [d2]
  · rw [d1, d2, hfiles]

/-- C3 witness: a 1,000,001-row batched fetch whose two batches concatenate to
the same single row a one-row single-shot fetch returns yields the identical
checksum. -/
theorem c3_checksum_independent_of_fetch_strategy_witness :
    (downloadDataset "A" "r1" batchedDl .missing dt20250601).snd.fst.fst = true ∧
    (downloadDataset "B" "r2" singleDl .missing dt20250601).snd.fst.fst = true ∧
    (downloadDataset "A" "r1" batchedDl .missing dt20250601).snd.fst.snd =
      (downloadDataset "B" "r2" singleDl .missing dt20250601).snd.fst.snd :=
  c3_checksum_independent_of_fetch_strategy "A" "r1" "B" "r2" batchedDl singleDl
    .missing .missing dt20250601 dt20250601 (by decide) rfl rfl (by decide) (by decide)
    rfl rfl rfl rfl rfl (by decide)

/-- C4 counterexample: at 2,000,000 rows - strictly above the batch threshold,
`id` column present - the source computes `(row_count // DOWNLOAD_BATCHSIZE) + 1
= 3` batches and emits three per-batch messages, while
`ceil(2000000 / 1000000) = 2`: the claimed "exactly ceil(count / batchSize)
batches" fails on exact multiples of the batch size. -/
theorem c4_exact_multiple_not_ceil :
    numBatches twoMillionDl.rowCount = 3 ∧
    (twoMillionDl.rowCount + DOWNLOAD_BATCHSIZE - 1) / DOWNLOAD_BATCHSIZE = 2 ∧
    ((downloadProgressMsgs "A" twoMillionDl).filter (fun m => m.text.isBatchMsg)).length = 3 := by
  decide

/-- C4 amended: for row counts strictly above the batch threshold with the
`id` column exposed, incremental mode fetches exactly
`row_count // batchSize + 1` batches - which equals `ceil(count / batchSize)`
exactly when the batch size does not divide the count, and is one more (a
trailing empty batch) when it does - with offsets in strictly increasing
order, one per-batch message per batch in index order inside the download
trace, and the raw file assembled as the first batch with the header followed
by the remaining batches without one. -/
theorem c4_incremental_batches_amended (name rid : String) (w : DlWorld)
    (store : MetaRead) (now : PyDateTime)
    (hcount : w.rowCount > DOWNLOAD_BATCHSIZE)
    (hsample : w.sampleEmpty = false) (hid : w.hasIdColumn = true) :
    numBatches w.rowCount = w.rowCount / DOWNLOAD_BATCHSIZE + 1 ∧
    (¬ DOWNLOAD_BATCHSIZE ∣ w.rowCount →
      numBatches w.rowCount = (w.rowCount + DOWNLOAD_BATCHSIZE - 1) / DOWNLOAD_BATCHSIZE) ∧
    (DOWNLOAD_BATCHSIZE ∣ w.rowCount →
      numBatches w.rowCount =
        (w.rowCount + DOWNLOAD_BATCHSIZE - 1) / DOWNLOAD_BATCHSIZE + 1) ∧
    List.Sorted (· < ·) (batchOffsets w.rowCount) ∧
    (downloadDataset name rid w store now).fst =
      ⟨.update, true, .downloading name⟩ :: downloadProgressMsgs name w ++
        (if !w.zipOk then [⟨.update, false, .failedZip name⟩]
         else match store with
           | .corrupt => [⟨.update, false, .failedDownload name⟩]
           | _ => []) ∧
    ((downloadProgressMsgs name w).filter (fun m => m.text.isBatchMsg)) =
      (List.range (numBatches w.rowCount)).map
        (fun i => ⟨.update, true, .downloadingBatch (i + 1) (numBatches w.rowCount) name⟩) ∧
    downloadFileLines w = w.header :: (List.range (numBatches w.rowCount)).flatMap w.batchRows := by
  have hpos : w.rowCount ≠ 0 := by
    intro h
    rw [h] at hcount
    exact absurd hcount (by decide)
  have hinc : isIncremental w = true := by
    simp [isIncremental, hsample, hid, hcount]
  have key : ∀ (l : List Nat),
      (l.map (fun i =>
        (⟨.update, true, .downloadingBatch (i + 1) (numBatches w.rowCount) name⟩ : Msg))).filter
          (fun m => m.text.isBatchMsg) =
      l.map (fun i =>
        (⟨.update, true, .downloadingBatch (i + 1) (numBatches w.rowCount) name⟩ : Msg)) := by
    intro l
    induction l with
    | nil => rfl
    | cons a t ih => simp [List.filter_cons, MText.isBatchMsg, ih]
  refine ⟨rfl, ?_, ?_, ?_, ?_, ?_, ?_⟩
  · intro hdvd
    unfold numBatches DOWNLOAD_BATCHSIZE
    unfold DOWNLOAD_BATCHSIZE at hdvd
    omega
  · intro hdvd
    unfold numBatches DOWNLOAD_BATCHSIZE
    unfold DOWNLOAD_BATCHSIZE at hdvd
    omega
  · rw [List.Sorted, batchOffsets, List.pairwise_map]
    exact (List.sorted_lt_range _).imp (fun h => by simp [DOWNLOAD_BATCHSIZE]; omega)
  · rw [downloadDataset_fst, if_neg hpos]
  · unfold downloadProgressMsgs
    rw [if_pos hinc]
    simp [List.filter_append, List.filter_cons, MText.isBatchMsg, key]
  · simp [downloadFileLines, hinc, incrementalFileLines]

/-- C4 witness: the amended statement evaluated at 2,500,001 rows - three
batches, which is the ceiling since the batch size does not divide the
count - with the three per-batch messages in order. -/
theorem c4_incremental_batches_amended_witness :
    numBatches bigDl.rowCount = bigDl.rowCount / DOWNLOAD_BATCHSIZE + 1 ∧
    numBatches bigDl.rowCount =
      (bigDl.rowCount + DOWNLOAD_BATCHSIZE - 1) / DOWNLOAD_BATCHSIZE ∧
    List.Sorted (· < ·) (batchOffsets bigDl.rowCount) ∧
    ((downloadProgressMsgs "A" bigDl).filter (fun m => m.text.isBatchMsg)) =
      (List.range (numBatches bigDl.rowCount)).map
        (fun i => ⟨.update, true, .downloadingBatch (i + 1) (numBatches bigDl.rowCount) "A"⟩) :=
  have h := c4_incremental_batches_amended "A" "r" bigDl .missing dt20250601
    (by decide) rfl rfl
  ⟨h.1, h.2.1 (by decide), h.2.2.2.1, h.2.2.2.2.2.1⟩
